import Mathlib

/-!
Shallow embedding of the idempotent transactional ledger & inventory engine
(`src/tools.py` of the Agent-Based-Task-Fulfillment-Chatbot repository).

The SQLite database is modelled as a `Store` record of table rows; SQL
statements become list operations (`SELECT ... WHERE` = `List.find?` /
`List.filter`, `UPDATE` = `List.map`, `INSERT` = append, `ORDER BY` = a
stable insertion sort, `LIKE` = an explicit pattern matcher with `%`/`_`
wildcards).  The non-deterministic effects of the Python code (uuid
generation for `tx_id`/`order_id`, the wall-clock timestamp) are passed in
as explicit parameters.  Python exceptions become `Except` errors, one
constructor per `raise` site; the `try/except: rollback` wrapper of the two
mutating operations becomes a wrapper that discards the in-transaction
store on error.
-/

/-! ## String primitives

Python `str.lower` / SQL `LOWER` (ASCII case folding — SQLite's `LOWER`
only folds ASCII), `str.strip`, `str.split`, `str.replace("-", " ")`,
byte-wise string comparison (SQLite's default BINARY collation; for valid
UTF-8, byte order coincides with code-point order), and the SQLite `LIKE`
operator. -/

def asciiLowerChar (c : Char) : Char :=
  if 'A' ≤ c ∧ c ≤ 'Z' then Char.ofNat (c.toNat + 32) else c

def lowerStr (s : String) : String := ⟨s.data.map asciiLowerChar⟩

def isWsChar (c : Char) : Bool :=
  c = ' ' || c = '\t' || c = '\n' || c = '\r' || c = '\x0b' || c = '\x0c'

def stripStr (s : String) : String :=
  ⟨((s.data.dropWhile isWsChar).reverse.dropWhile isWsChar).reverse⟩

def splitWsAux : List Char → List Char → List String
  | [], acc => if acc.isEmpty then [] else [⟨acc.reverse⟩]
  | c :: t, acc =>
    if isWsChar c then
      (if acc.isEmpty then splitWsAux t [] else ⟨acc.reverse⟩ :: splitWsAux t [])
    else splitWsAux t (c :: acc)

def splitWs (s : String) : List String := splitWsAux s.data []

def dashToSpace (s : String) : String :=
  ⟨s.data.map (fun c => if c = '-' then ' ' else c)⟩

def strLen (s : String) : Nat := s.data.length

def endsInS (s : String) : Bool :=
  match s.data.getLast? with
  | some c => c = 's'
  | none => false

def dropLastChar (s : String) : String := ⟨s.data.dropLast⟩

/-- Byte-wise (code-point-wise) lexicographic `≤` on strings, the SQLite
BINARY collation used by `ORDER BY name ASC` / `ORDER BY created_at DESC`. -/
def strLeAux : List Char → List Char → Bool
  | [], _ => true
  | _ :: _, [] => false
  | a :: as, b :: bs => if a = b then strLeAux as bs else decide (a < b)

def strLe (a b : String) : Bool := strLeAux a.data b.data

/-- All suffixes of a character list (including the list itself and `[]`). -/
def likeSuffixes : List Char → List (List Char)
  | [] => [[]]
  | c :: t => (c :: t) :: likeSuffixes t

/-- SQLite `LIKE` pattern matching: `%` matches any (possibly empty)
character sequence, `_` matches exactly one character, every other pattern
character matches itself.  Both sides have already been case-folded by the
caller (the code applies `LOWER` to the column and Python `.lower()` to the
query before matching), so plain character equality is the right test. -/
def likeM : List Char → List Char → Bool
  | [], s => s.isEmpty
  | p :: ps, s =>
    if p = '%' then (likeSuffixes s).any (fun t => likeM ps t)
    else
      match s with
      | [] => false
      | c :: t => (p = '_' || p = c) && likeM ps t

def likeMatch (pat s : String) : Bool := likeM pat.data s.data

/-- Case-insensitive substring containment — NOT what the code computes
(the code uses `LIKE` with the unescaped query), but what the spec sentence
"case-insensitive substring match on name" literally says.  Used to state
claim C8 as written. -/
def isPrefAux : List Char → List Char → Bool
  | [], _ => true
  | _ :: _, [] => false
  | a :: as, b :: bs => a = b && isPrefAux as bs

def containsSub : List Char → List Char → Bool
  | needle, [] => needle.isEmpty
  | needle, c :: t => isPrefAux needle (c :: t) || containsSub needle t

def containsCI (hay needle : String) : Bool :=
  containsSub (lowerStr needle).data (lowerStr hay).data

/-- Stable insertion sort; models SQL `ORDER BY` (rows enumerated in table
order, ordered by the given key). -/
def insertLe {α : Type} (le : α → α → Bool) (a : α) : List α → List α
  | [] => [a]
  | b :: t => if le a b then a :: b :: t else b :: insertLe le a t

def sortBy {α : Type} (le : α → α → Bool) : List α → List α
  | [] => []
  | a :: t => insertLe le a (sortBy le t)

/-! ## Data model (`src/db.py` schema use in `src/tools.py`, `src/models.py`) -/

structure UserRow where
  user_id : String
  name : String
  deriving Repr, DecidableEq

structure WalletRow where
  user_id : String
  balance_cents : Int
  deriving Repr, DecidableEq

/-- A row of the `products` table; also the `Product` response payload
(`src/models.py` `Product` has exactly these fields, and
`_row_to_product` copies them across). -/
structure Product where
  product_id : String
  name : String
  price_cents : Int
  inventory : Int
  deriving Repr, DecidableEq

structure OrderRow where
  order_id : String
  user_id : String
  created_at : String
  status : String
  total_cents : Int
  deriving Repr, DecidableEq

structure OrderItemRow where
  order_id : String
  product_id : String
  quantity : Int
  unit_price_cents : Int
  deriving Repr, DecidableEq

/-- The parsed `metadata_json` column of a ledger row: `add_funds` writes
`{"source": ...}`, `purchase` writes
`{"order_id": ..., "product_id": ..., "quantity": ...}`. -/
inductive LedgerMeta where
  | topup (source : String)
  | purchaseMeta (order_id : String) (product_id : String) (quantity : Int)
  deriving Repr, DecidableEq

/-- `meta.get("order_id")` on the parsed metadata. -/
def LedgerMeta.orderId? : LedgerMeta → Option String
  | .topup _ => none
  | .purchaseMeta oid _ _ => some oid

structure LedgerRow where
  tx_id : String
  user_id : String
  kind : String
  amount_cents : Int
  created_at : String
  client_request_id : String
  metadata : LedgerMeta
  deriving Repr, DecidableEq

/-- The whole SQLite database. -/
structure Store where
  users : List UserRow
  wallets : List WalletRow
  products : List Product
  orders : List OrderRow
  order_items : List OrderItemRow
  ledger : List LedgerRow
  deriving Repr, DecidableEq

/-! ## Response types (`src/models.py`) -/

structure BalanceResponse where
  user_id : String
  balance_cents : Int
  deriving Repr, DecidableEq

structure AddFundsResponse where
  user_id : String
  added_cents : Int
  new_balance_cents : Int
  tx_id : String
  deriving Repr, DecidableEq

structure SearchProductsResponse where
  products : List Product
  deriving Repr, DecidableEq

structure GetProductResponse where
  product : Product
  deriving Repr, DecidableEq

structure PurchaseResponse where
  user_id : String
  order_id : String
  product_id : String
  quantity : Int
  unit_price_cents : Int
  total_cents : Int
  new_balance_cents : Int
  deriving Repr, DecidableEq

structure OrderItem where
  product_id : String
  name : String
  quantity : Int
  unit_price_cents : Int
  deriving Repr, DecidableEq

structure Order where
  order_id : String
  created_at : String
  status : String
  total_cents : Int
  items : List OrderItem
  deriving Repr, DecidableEq

structure GetOrdersResponse where
  user_id : String
  orders : List Order
  deriving Repr, DecidableEq

/-- One constructor per `raise` site in `src/tools.py` (`ValueError`s,
the two `RuntimeError`s of the idempotent-purchase replay branch, and the
`TypeError` that subscripting a missing `orders` row would raise). -/
inductive ToolErr where
  | InvalidAmount
  | InvalidQuantity
  | UnknownUser
  | UnknownProduct
  | WalletNotFound
  | InsufficientInventory
  | InsufficientFunds
  | InvalidLimit
  | MissingOrderMetadata
  | OrderMissingItems
  | OrderRowMissing
  deriving Repr, DecidableEq

deriving instance DecidableEq for Except

/-! ## Internal helpers (`src/tools.py` lines 47–65) -/

/-- `_ensure_user_exists`: `SELECT 1 FROM users WHERE user_id = ?`. -/
def userExists (s : Store) (uid : String) : Bool :=
  s.users.any (fun u => u.user_id = uid)

/-- `_get_wallet_balance`: `SELECT balance_cents FROM wallets WHERE user_id = ?`. -/
def walletBalance? (s : Store) (uid : String) : Option Int :=
  (s.wallets.find? (fun w => w.user_id = uid)).map (fun w => w.balance_cents)

/-- `_get_ledger_by_client_request`: `SELECT * FROM ledger WHERE client_request_id = ?`. -/
def getLedgerByClientRequest (s : Store) (crid : String) : Option LedgerRow :=
  s.ledger.find? (fun e => e.client_request_id = crid)

/-- `SELECT ... FROM products WHERE product_id = ?`. -/
def findProduct (s : Store) (pid : String) : Option Product :=
  s.products.find? (fun p => p.product_id = pid)

/-- `UPDATE wallets SET balance_cents = ? WHERE user_id = ?`. -/
def setWalletBalance (s : Store) (uid : String) (b : Int) : Store :=
  { s with wallets :=
      s.wallets.map (fun w => if w.user_id = uid then { w with balance_cents := b } else w) }

/-- `UPDATE products SET inventory = ? WHERE product_id = ?`. -/
def setProductInventory (s : Store) (pid : String) (inv : Int) : Store :=
  { s with products :=
      s.products.map (fun p => if p.product_id = pid then { p with inventory := inv } else p) }

/-! ## Tool 1: `get_balance` (`src/tools.py` lines 71–78)

Read accessors issue only `SELECT` statements; the store they return
(committed state at `conn.close()`) is the store they were given. -/

def get_balance (s : Store) (user_id : String) :
    Except ToolErr BalanceResponse × Store :=
  ((if !(userExists s user_id) then .error .UnknownUser
    else
      match walletBalance? s user_id with
      | none => .error .WalletNotFound
      | some bal => .ok { user_id := user_id, balance_cents := bal }), s)

/-! ## Tool 2: `add_funds` (`src/tools.py` lines 84–148) -/

/-- The `TOPUP` success path commit: `UPDATE wallets` plus
`INSERT INTO ledger` in one transaction. -/
def applyTopup (s : Store) (user_id : String) (amount_cents : Int) (source : String)
    (client_request_id tx_id now : String) (bal_before : Int) : Store :=
  let s1 := setWalletBalance s user_id (bal_before + amount_cents)
  { s1 with ledger := s1.ledger ++
      [{ tx_id := tx_id, user_id := user_id, kind := "TOPUP",
         amount_cents := amount_cents, created_at := now,
         client_request_id := client_request_id,
         metadata := .topup source }] }

/-- Body of `add_funds` up to (but not including) the `except: rollback`
wrapper.  `tx_id`/`now` stand for `_new_tx_id()` / `_utc_now_iso()`. -/
def addFundsBody (s : Store) (user_id : String) (amount_cents : Int) (source : String)
    (client_request_id tx_id now : String) :
    Except ToolErr (AddFundsResponse × Store) :=
  if amount_cents ≤ 0 then .error .InvalidAmount
  else if !(userExists s user_id) then .error .UnknownUser
  else
    match getLedgerByClientRequest s client_request_id with
    | some existing =>
      -- Idempotency: reconstruct the response from the existing ledger row
      -- and a fresh wallet read; no write is issued.
      match walletBalance? s user_id with
      | none => .error .WalletNotFound
      | some bal =>
        .ok ({ user_id := user_id, added_cents := existing.amount_cents,
               new_balance_cents := bal, tx_id := existing.tx_id }, s)
    | none =>
      match walletBalance? s user_id with
      | none => .error .WalletNotFound
      | some bal_before =>
        .ok ({ user_id := user_id, added_cents := amount_cents,
               new_balance_cents := bal_before + amount_cents, tx_id := tx_id },
             applyTopup s user_id amount_cents source client_request_id tx_id now bal_before)

/-- `add_funds`: on any exception the transaction is rolled back, so an
error leaves the committed store as it was. -/
def add_funds (s : Store) (user_id : String) (amount_cents : Int) (source : String)
    (client_request_id tx_id now : String) :
    Except ToolErr AddFundsResponse × Store :=
  match addFundsBody s user_id amount_cents source client_request_id tx_id now with
  | .ok (r, s') => (.ok r, s')
  | .error e => (.error e, s)

/-! ## Tool 3: `search_products` (`src/tools.py` lines 186–225) -/

def sortByName (l : List Product) : List Product :=
  sortBy (fun a b => strLe a.name b.name) l

/-- The fallback keyword list: lowercase stripped query, hyphens replaced
by spaces, split on whitespace, each word longer than 3 characters ending
in `s` loses its trailing `s`. -/
def queryWords (q_raw : String) : List String :=
  ((splitWs (dashToSpace q_raw)).filter (fun w => w ≠ "")).map
    (fun w => if strLen w > 3 && endsInS w then dropLastChar w else w)

def search_products (s : Store) (query : Option String) :
    SearchProductsResponse × Store :=
  ((match query with
   | none => { products := sortByName s.products }
   | some q =>
     if stripStr q = "" then { products := sortByName s.products }
     else
       let q_raw := lowerStr (stripStr q)
       let rows := sortByName
         (s.products.filter (fun p => likeMatch ("%" ++ q_raw ++ "%") (lowerStr p.name)))
       -- Fallback 1: keyword OR search + crude plural normalization
       if rows.length = 0 then
         let words := queryWords q_raw
         if words.isEmpty then { products := rows }
         else
           { products := sortByName
               (s.products.filter (fun p =>
                 words.any (fun w => likeMatch ("%" ++ w ++ "%") (lowerStr p.name)))) }
       else { products := rows } : SearchProductsResponse),
   s)

/-! ## Tool 4: `get_product` (`src/tools.py` lines 231–242) -/

def get_product (s : Store) (product_id : String) :
    Except ToolErr GetProductResponse × Store :=
  ((match findProduct s product_id with
    | none => .error .UnknownProduct
    | some p => .ok { product := p }), s)

/-! ## Tool 5: `purchase` (`src/tools.py` lines 248–374) -/

/-- The `LIMIT 1` row of
`SELECT oi.product_id, oi.quantity, oi.unit_price_cents, p.name FROM
order_items oi JOIN products p ON p.product_id = oi.product_id WHERE
oi.order_id = ?`. -/
def findOrderItemJoined (s : Store) (oid : String) :
    Option (String × Int × Int × String) :=
  (s.order_items.filterMap (fun oi =>
    if oi.order_id = oid then
      (findProduct s oi.product_id).map
        (fun p => (oi.product_id, oi.quantity, oi.unit_price_cents, p.name))
    else none)).head?

/-- The purchase success path commit: debit the wallet, decrement the
inventory, insert the order, its item, and the (negative) ledger entry —
all in one transaction. -/
def applyPurchase (s : Store) (user_id product_id : String) (quantity : Int)
    (client_request_id order_id tx_id now : String)
    (price_cents inventory bal_before : Int) : Store :=
  let total_cents := price_cents * quantity
  let s1 := setWalletBalance s user_id (bal_before - total_cents)
  let s2 := setProductInventory s1 product_id (inventory - quantity)
  let s3 := { s2 with orders := s2.orders ++
      [({ order_id := order_id, user_id := user_id, created_at := now,
          status := "PLACED", total_cents := total_cents } : OrderRow)] }
  let s4 := { s3 with order_items := s3.order_items ++
      [({ order_id := order_id, product_id := product_id,
          quantity := quantity, unit_price_cents := price_cents } : OrderItemRow)] }
  { s4 with ledger := s4.ledger ++
      [({ tx_id := tx_id, user_id := user_id, kind := "PURCHASE",
          amount_cents := -total_cents, created_at := now,
          client_request_id := client_request_id,
          metadata := .purchaseMeta order_id product_id quantity } : LedgerRow)] }

/-- Body of `purchase` up to the `except: rollback` wrapper.
`order_id`/`tx_id`/`now` stand for `_new_order_id()` / `_new_tx_id()` /
`_utc_now_iso()`. -/
def purchaseBody (s : Store) (user_id product_id : String) (quantity : Int)
    (client_request_id order_id tx_id now : String) :
    Except ToolErr (PurchaseResponse × Store) :=
  if quantity ≤ 0 then .error .InvalidQuantity
  else if !(userExists s user_id) then .error .UnknownUser
  else
    match getLedgerByClientRequest s client_request_id with
    | some existing =>
      -- Idempotency: if already processed, return the order in metadata.
      match existing.metadata.orderId? with
      | none => .error .MissingOrderMetadata
      | some oid =>
        if oid = "" then .error .MissingOrderMetadata
        else
          match walletBalance? s user_id with
          | none => .error .WalletNotFound
          | some bal =>
            match findOrderItemJoined s oid with
            | none => .error .OrderMissingItems
            | some (item_pid, item_qty, item_price, _name) =>
              match s.orders.find? (fun o => o.order_id = oid) with
              | none => .error .OrderRowMissing
              | some ord =>
                .ok ({ user_id := user_id, order_id := oid,
                       product_id := item_pid, quantity := item_qty,
                       unit_price_cents := item_price,
                       total_cents := ord.total_cents,
                       new_balance_cents := bal }, s)
    | none =>
      -- Normal purchase path
      match findProduct s product_id with
      | none => .error .UnknownProduct
      | some prod =>
        if prod.inventory < quantity then .error .InsufficientInventory
        else
          match walletBalance? s user_id with
          | none => .error .WalletNotFound
          | some bal_before =>
            if bal_before < prod.price_cents * quantity then .error .InsufficientFunds
            else
              .ok ({ user_id := user_id, order_id := order_id,
                     product_id := product_id, quantity := quantity,
                     unit_price_cents := prod.price_cents,
                     total_cents := prod.price_cents * quantity,
                     new_balance_cents := bal_before - prod.price_cents * quantity },
                   applyPurchase s user_id product_id quantity client_request_id
                     order_id tx_id now prod.price_cents prod.inventory bal_before)

/-- `purchase`: on any exception the transaction is rolled back, so an
error leaves the committed store as it was. -/
def purchase (s : Store) (user_id product_id : String) (quantity : Int)
    (client_request_id order_id tx_id now : String) :
    Except ToolErr PurchaseResponse × Store :=
  match purchaseBody s user_id product_id quantity client_request_id order_id tx_id now with
  | .ok (r, s') => (.ok r, s')
  | .error e => (.error e, s)

/-! ## Tool 6: `get_orders` (`src/tools.py` lines 380–427) -/

/-- The item rows of one order, joined with `products` for the name. -/
def orderItemsFor (s : Store) (oid : String) : List OrderItem :=
  s.order_items.filterMap (fun oi =>
    if oi.order_id = oid then
      (findProduct s oi.product_id).map (fun p =>
        { product_id := oi.product_id, name := p.name,
          quantity := oi.quantity, unit_price_cents := oi.unit_price_cents })
    else none)

def get_orders (s : Store) (user_id : String) (limit : Int) :
    Except ToolErr GetOrdersResponse × Store :=
  ((if limit ≤ 0 ∨ limit > 50 then .error .InvalidLimit
    else if !(userExists s user_id) then .error .UnknownUser
    else
      let rows := (sortBy (fun a b => strLe b.created_at a.created_at)
        (s.orders.filter (fun o => o.user_id = user_id))).take limit.toNat
      .ok { user_id := user_id,
            orders := rows.map (fun o =>
              { order_id := o.order_id, created_at := o.created_at,
                status := o.status, total_cents := o.total_cents,
                items := orderItemsFor s o.order_id }) }), s)

/-! ## Operation alphabet and executor, for sequence-level invariants -/

inductive Op where
  | getBalanceOp (user_id : String)
  | addFundsOp (user_id : String) (amount_cents : Int)
      (source client_request_id tx_id now : String)
  | searchProductsOp (query : Option String)
  | getProductOp (product_id : String)
  | purchaseOp (user_id product_id : String) (quantity : Int)
      (client_request_id order_id tx_id now : String)
  | getOrdersOp (user_id : String) (limit : Int)
  deriving Repr

/-- The committed store after one call (successful or failed). -/
def execOp (s : Store) : Op → Store
  | .getBalanceOp u => (get_balance s u).2
  | .addFundsOp u a src crid tx now => (add_funds s u a src crid tx now).2
  | .searchProductsOp q => (search_products s q).2
  | .getProductOp p => (get_product s p).2
  | .purchaseOp u p q crid oid tx now => (purchase s u p q crid oid tx now).2
  | .getOrdersOp u l => (get_orders s u l).2

/-! ## Invariants -/

/-- Sum of `ledger.amount_cents` over the entries of one user. -/
def ledgerSumL (l : List LedgerRow) (uid : String) : Int :=
  ((l.filter (fun e => e.user_id = uid)).map (fun e => e.amount_cents)).sum

def ledgerSum (s : Store) (uid : String) : Int := ledgerSumL s.ledger uid

/-- Balance conservation: every wallet balance equals the user's initial
balance (the seeded value, before any core operation ran) plus the sum of
the ledger amounts the core has written for that user. -/
def Conservation (init : String → Int) (s : Store) : Prop :=
  ∀ w ∈ s.wallets, w.balance_cents = init w.user_id + ledgerSum s w.user_id

/-- Non-negativity of every wallet balance and every product inventory. -/
def NonNegState (s : Store) : Prop :=
  (∀ w ∈ s.wallets, 0 ≤ w.balance_cents) ∧ (∀ p ∈ s.products, 0 ≤ p.inventory)

/-- The search algorithm as the specification literally words it:
"products whose name contains the query case-insensitively", with the
plural-stripped word fallback also by containment.  `search_products`
instead issues unescaped SQL `LIKE` patterns built from the
whitespace-stripped query, which differs once the query contains a `LIKE`
wildcard (`%`/`_`) or surrounding whitespace. -/
def search_products_claim (s : Store) (query : Option String) : SearchProductsResponse :=
  match query with
  | none => { products := sortByName s.products }
  | some q =>
    if stripStr q = "" then { products := sortByName s.products }
    else
      let rows := s.products.filter (fun p => containsCI p.name q)
      if rows.length = 0 then
        let words := queryWords (lowerStr (stripStr q))
        { products := sortByName (s.products.filter (fun p =>
            words.any (fun w => containsCI p.name w))) }
      else { products := sortByName rows }

/-! ## Concrete stores (seed-style data, for witnesses) -/

def demoStore : Store :=
  { users := [⟨"u_1001", "Alex Chen"⟩, ⟨"u_1002", "Sam Rivera"⟩],
    wallets := [⟨"u_1001", 2500⟩, ⟨"u_1002", 1200⟩],
    products := [⟨"p_2001", "USB-C Cable (1m)", 899, 25⟩,
                 ⟨"p_2012", "Ethernet Cable (2m)", 699, 40⟩,
                 ⟨"p_2002", "Wireless Mouse", 1999, 12⟩],
    orders := [], order_items := [], ledger := [] }

/-- Seeded balances of `demoStore` (ledger starts empty there). -/
def demoInit : String → Int :=
  fun u => if u = "u_1001" then 2500 else if u = "u_1002" then 1200 else 0

/-- A one-product catalog whose name matches the `LIKE` pattern built from
the query `"a%b"` without containing that query as a substring. -/
def cexStore : Store :=
  { users := [], wallets := [],
    products := [⟨"p1", "axb", 100, 5⟩],
    orders := [], order_items := [], ledger := [] }

/-! ## Lookup / frame lemmas -/

theorem walletBalance?_set (s : Store) (uid u' : String) (b : Int) :
    walletBalance? (setWalletBalance s uid b) u' =
      (walletBalance? s u').map (fun old => if u' = uid then b else old) := by
  unfold walletBalance? setWalletBalance
  simp only [List.find?_map]
  have hcomp : ((fun w : WalletRow => decide (w.user_id = u')) ∘
      (fun w => if w.user_id = uid then { w with balance_cents := b } else w)) =
      (fun w : WalletRow => decide (w.user_id = u')) := by
    funext w; by_cases h : w.user_id = uid <;> simp [h]
  rw [hcomp]
  cases hf : List.find? (fun w : WalletRow => decide (w.user_id = u')) s.wallets with
  | none => rfl
  | some w =>
    have hp := List.find?_some hf
    simp only [decide_eq_true_eq] at hp
    by_cases h3 : u' = uid
    · simp [h3 ▸ hp, h3]
    · have : ¬ w.user_id = uid := by rw [hp]; exact h3
      simp [this, h3]

theorem findProduct_set (s : Store) (pid p' : String) (inv : Int) :
    findProduct (setProductInventory s pid inv) p' =
      (findProduct s p').map
        (fun p => if p.product_id = pid then { p with inventory := inv } else p) := by
  unfold findProduct setProductInventory
  simp only [List.find?_map]
  have hcomp : ((fun p : Product => decide (p.product_id = p')) ∘
      (fun p => if p.product_id = pid then { p with inventory := inv } else p)) =
      (fun p : Product => decide (p.product_id = p')) := by
    funext p; by_cases h : p.product_id = pid <;> simp [h]
  rw [hcomp]

theorem applyTopup_users (s : Store) (u : String) (amt : Int) (src crid tx now : String)
    (bal : Int) : (applyTopup s u amt src crid tx now bal).users = s.users := rfl

theorem applyTopup_products (s : Store) (u : String) (amt : Int) (src crid tx now : String)
    (bal : Int) : (applyTopup s u amt src crid tx now bal).products = s.products := rfl

theorem applyTopup_orders (s : Store) (u : String) (amt : Int) (src crid tx now : String)
    (bal : Int) : (applyTopup s u amt src crid tx now bal).orders = s.orders := rfl

theorem applyTopup_order_items (s : Store) (u : String) (amt : Int) (src crid tx now : String)
    (bal : Int) : (applyTopup s u amt src crid tx now bal).order_items = s.order_items := rfl

theorem applyTopup_ledger (s : Store) (u : String) (amt : Int) (src crid tx now : String)
    (bal : Int) : (applyTopup s u amt src crid tx now bal).ledger =
      s.ledger ++ [{ tx_id := tx, user_id := u, kind := "TOPUP", amount_cents := amt,
                     created_at := now, client_request_id := crid,
                     metadata := .topup src }] := rfl

theorem applyTopup_wallets (s : Store) (u : String) (amt : Int) (src crid tx now : String)
    (bal : Int) : (applyTopup s u amt src crid tx now bal).wallets =
      s.wallets.map (fun w => if w.user_id = u then { w with balance_cents := bal + amt } else w) :=
  rfl

theorem applyTopup_balance (s : Store) (u u' : String) (amt : Int) (src crid tx now : String)
    (bal : Int) : walletBalance? (applyTopup s u amt src crid tx now bal) u' =
      (walletBalance? s u').map (fun old => if u' = u then bal + amt else old) :=
  walletBalance?_set s u u' (bal + amt)

theorem applyPurchase_users (s : Store) (u p : String) (q : Int) (crid oid tx now : String)
    (price inv bal : Int) :
    (applyPurchase s u p q crid oid tx now price inv bal).users = s.users := rfl

theorem applyPurchase_wallets (s : Store) (u p : String) (q : Int) (crid oid tx now : String)
    (price inv bal : Int) :
    (applyPurchase s u p q crid oid tx now price inv bal).wallets =
      s.wallets.map (fun w => if w.user_id = u then { w with balance_cents := bal - price * q } else w) :=
  rfl

theorem applyPurchase_products (s : Store) (u p : String) (q : Int) (crid oid tx now : String)
    (price inv bal : Int) :
    (applyPurchase s u p q crid oid tx now price inv bal).products =
      s.products.map (fun pr => if pr.product_id = p then { pr with inventory := inv - q } else pr) :=
  rfl

theorem applyPurchase_orders (s : Store) (u p : String) (q : Int) (crid oid tx now : String)
    (price inv bal : Int) :
    (applyPurchase s u p q crid oid tx now price inv bal).orders =
      s.orders ++ [{ order_id := oid, user_id := u, created_at := now,
                     status := "PLACED", total_cents := price * q }] := rfl

theorem applyPurchase_order_items (s : Store) (u p : String) (q : Int) (crid oid tx now : String)
    (price inv bal : Int) :
    (applyPurchase s u p q crid oid tx now price inv bal).order_items =
      s.order_items ++ [{ order_id := oid, product_id := p, quantity := q,
                          unit_price_cents := price }] := rfl

theorem applyPurchase_ledger (s : Store) (u p : String) (q : Int) (crid oid tx now : String)
    (price inv bal : Int) :
    (applyPurchase s u p q crid oid tx now price inv bal).ledger =
      s.ledger ++ [{ tx_id := tx, user_id := u, kind := "PURCHASE",
                     amount_cents := -(price * q), created_at := now,
                     client_request_id := crid,
                     metadata := .purchaseMeta oid p q }] := rfl

theorem applyPurchase_balance (s : Store) (u u' p : String) (q : Int) (crid oid tx now : String)
    (price inv bal : Int) :
    walletBalance? (applyPurchase s u p q crid oid tx now price inv bal) u' =
      (walletBalance? s u').map (fun old => if u' = u then bal - price * q else old) := by
  have h : walletBalance? (applyPurchase s u p q crid oid tx now price inv bal) u' =
      walletBalance? (setWalletBalance s u (bal - price * q)) u' := rfl
  rw [h, walletBalance?_set]

theorem applyPurchase_findProduct (s : Store) (u p p' : String) (q : Int)
    (crid oid tx now : String) (price inv bal : Int) :
    findProduct (applyPurchase s u p q crid oid tx now price inv bal) p' =
      (findProduct s p').map
        (fun pr => if pr.product_id = p then { pr with inventory := inv - q } else pr) := by
  have h : findProduct (applyPurchase s u p q crid oid tx now price inv bal) p' =
      findProduct (setProductInventory (setWalletBalance s u (bal - price * q)) p (inv - q)) p' :=
    rfl
  rw [h, findProduct_set]
  rfl

/-! ## Case analyses of the mutator bodies -/

/-- Every successful `add_funds` body run is either an idempotent replay
(no state change) or a first-time top-up commit. -/
theorem addFundsBody_ok {s : Store} {u : String} {amt : Int} {src crid tx now : String}
    {r : AddFundsResponse} {s' : Store}
    (h : addFundsBody s u amt src crid tx now = .ok (r, s')) :
    0 < amt ∧ userExists s u = true ∧
    ((∃ e bal, getLedgerByClientRequest s crid = some e ∧ walletBalance? s u = some bal ∧
        s' = s ∧ r = ⟨u, e.amount_cents, bal, e.tx_id⟩) ∨
     (∃ bal, getLedgerByClientRequest s crid = none ∧ walletBalance? s u = some bal ∧
        s' = applyTopup s u amt src crid tx now bal ∧ r = ⟨u, amt, bal + amt, tx⟩)) := by
  unfold addFundsBody at h
  split at h
  · exact absurd h (by simp)
  · split at h
    · exact absurd h (by simp)
    · refine ⟨by omega, by simp_all, ?_⟩
      split at h
      · split at h
        · exact absurd h (by simp)
        · left
          simp only [Except.ok.injEq, Prod.mk.injEq] at h
          exact ⟨_, _, by assumption, by assumption, h.2.symm, h.1.symm⟩
      · split at h
        · exact absurd h (by simp)
        · right
          simp only [Except.ok.injEq, Prod.mk.injEq] at h
          exact ⟨_, by assumption, by assumption, h.2.symm, h.1.symm⟩

/-- Every successful `purchase` body run is either an idempotent replay
(no state change) or a first-time purchase commit with all guards passed. -/
theorem purchaseBody_ok {s : Store} {u p : String} {q : Int} {crid oid tx now : String}
    {r : PurchaseResponse} {s' : Store}
    (h : purchaseBody s u p q crid oid tx now = .ok (r, s')) :
    ¬ q ≤ 0 ∧ userExists s u = true ∧
    ((∃ e oid0 bal item_pid item_qty item_price nm ord,
        getLedgerByClientRequest s crid = some e ∧ e.metadata.orderId? = some oid0 ∧
        oid0 ≠ "" ∧ walletBalance? s u = some bal ∧
        findOrderItemJoined s oid0 = some (item_pid, item_qty, item_price, nm) ∧
        s.orders.find? (fun o => o.order_id = oid0) = some ord ∧
        s' = s ∧ r = ⟨u, oid0, item_pid, item_qty, item_price, ord.total_cents, bal⟩) ∨
     (∃ prod bal,
        getLedgerByClientRequest s crid = none ∧ findProduct s p = some prod ∧
        ¬ prod.inventory < q ∧ walletBalance? s u = some bal ∧
        ¬ bal < prod.price_cents * q ∧
        s' = applyPurchase s u p q crid oid tx now prod.price_cents prod.inventory bal ∧
        r = ⟨u, oid, p, q, prod.price_cents, prod.price_cents * q,
             bal - prod.price_cents * q⟩)) := by
  unfold purchaseBody at h
  split at h
  · exact absurd h (by simp)
  · split at h
    · exact absurd h (by simp)
    · refine ⟨by assumption, by simp_all, ?_⟩
      split at h
      · -- replay branch
        split at h
        · exact absurd h (by simp)
        · split at h
          · exact absurd h (by simp)
          · split at h
            · exact absurd h (by simp)
            · split at h
              · exact absurd h (by simp)
              · split at h
                · exact absurd h (by simp)
                · left
                  simp only [Except.ok.injEq, Prod.mk.injEq] at h
                  exact ⟨_, _, _, _, _, _, _, _, by assumption, by assumption,
                    by assumption, by assumption, by assumption, by assumption,
                    h.2.symm, h.1.symm⟩
      · -- normal branch
        split at h
        · exact absurd h (by simp)
        · split at h
          · exact absurd h (by simp)
          · split at h
            · exact absurd h (by simp)
            · split at h
              · exact absurd h (by simp)
              · right
                simp only [Except.ok.injEq, Prod.mk.injEq] at h
                exact ⟨_, _, by assumption, by assumption, by assumption,
                  by assumption, by assumption, h.2.symm, h.1.symm⟩

/-! ## Conservation and non-negativity machinery -/

theorem ledgerSumL_append (l : List LedgerRow) (e : LedgerRow) (uid : String) :
    ledgerSumL (l ++ [e]) uid =
      ledgerSumL l uid + (if e.user_id = uid then e.amount_cents else 0) := by
  unfold ledgerSumL
  rw [List.filter_append]
  by_cases h : e.user_id = uid <;> simp [h]

/-- The balance read by `walletBalance?` satisfies the conservation
equation (it is the balance of a wallet row of the store). -/
theorem conservation_balance {init : String → Int} {s : Store} {u : String} {bal : Int}
    (hcons : Conservation init s) (hbal : walletBalance? s u = some bal) :
    bal = init u + ledgerSum s u := by
  unfold walletBalance? at hbal
  cases hf : List.find? (fun w => decide (w.user_id = u)) s.wallets with
  | none => rw [hf] at hbal; simp at hbal
  | some w0 =>
    rw [hf] at hbal
    simp only [Option.map_some', Option.some.injEq] at hbal
    have hmem := List.mem_of_find?_eq_some hf
    have hpu : w0.user_id = u := by simpa using List.find?_some hf
    have hc := hcons w0 hmem
    rw [hpu] at hc
    omega

/-- Conservation is preserved by any update that sets the balances of one
user's wallet rows to `bal + δ` (where `bal` is that user's balance read)
and, in the same transaction, appends one ledger entry of amount `δ` for
that user, touching nothing else. -/
theorem conservation_update {init : String → Int} {s s' : Store} {u : String}
    {bal δ : Int} {e : LedgerRow}
    (hw : s'.wallets = s.wallets.map
      (fun w => if w.user_id = u then { w with balance_cents := bal + δ } else w))
    (hl : s'.ledger = s.ledger ++ [e]) (heu : e.user_id = u) (hea : e.amount_cents = δ)
    (hbal : walletBalance? s u = some bal) (hcons : Conservation init s) :
    Conservation init s' := by
  have hb : bal = init u + ledgerSum s u := conservation_balance hcons hbal
  intro w' hw'
  rw [hw] at hw'
  obtain ⟨w, hwmem, rfl⟩ := List.mem_map.1 hw'
  have hsum : ∀ uid', ledgerSum s' uid' =
      ledgerSum s uid' + (if u = uid' then δ else 0) := by
    intro uid'
    unfold ledgerSum
    rw [hl, ledgerSumL_append, heu, hea]
  by_cases h : w.user_id = u
  · have heq : (if w.user_id = u then ({ w with balance_cents := bal + δ } : WalletRow) else w) =
        { w with balance_cents := bal + δ } := if_pos h
    rw [heq]
    show bal + δ = init w.user_id + ledgerSum s' w.user_id
    rw [h, hsum u, if_pos rfl]
    omega
  · have heq : (if w.user_id = u then ({ w with balance_cents := bal + δ } : WalletRow) else w) = w :=
      if_neg h
    rw [heq]
    rw [hsum w.user_id, if_neg (fun hh => h hh.symm)]
    have := hcons w hwmem
    omega

/-- Wallet non-negativity is preserved by setting one user's wallet rows
to a non-negative balance. -/
theorem nonneg_wallets_update {s s' : Store} {u : String} {newbal : Int}
    (hw : s'.wallets = s.wallets.map
      (fun w => if w.user_id = u then { w with balance_cents := newbal } else w))
    (hnb : 0 ≤ newbal) (hn : ∀ w ∈ s.wallets, 0 ≤ w.balance_cents) :
    ∀ w ∈ s'.wallets, 0 ≤ w.balance_cents := by
  intro w' hw'
  rw [hw] at hw'
  obtain ⟨w, hwmem, rfl⟩ := List.mem_map.1 hw'
  by_cases h : w.user_id = u
  · simpa [h] using hnb
  · simpa [h] using hn w hwmem

/-- Inventory non-negativity is preserved by setting one product's rows
to a non-negative inventory. -/
theorem nonneg_products_update {s s' : Store} {p : String} {newinv : Int}
    (hp : s'.products = s.products.map
      (fun pr => if pr.product_id = p then { pr with inventory := newinv } else pr))
    (hni : 0 ≤ newinv) (hn : ∀ pr ∈ s.products, 0 ≤ pr.inventory) :
    ∀ pr ∈ s'.products, 0 ≤ pr.inventory := by
  intro pr' hp'
  rw [hp] at hp'
  obtain ⟨pr, hmem, rfl⟩ := List.mem_map.1 hp'
  by_cases h : pr.product_id = p
  · simpa [h] using hni
  · simpa [h] using hn pr hmem

/-- The balance read by `walletBalance?` is non-negative in a non-negative
state. -/
theorem nonneg_balance {s : Store} {u : String} {bal : Int}
    (hn : ∀ w ∈ s.wallets, 0 ≤ w.balance_cents)
    (hbal : walletBalance? s u = some bal) : 0 ≤ bal := by
  unfold walletBalance? at hbal
  cases hf : List.find? (fun w => decide (w.user_id = u)) s.wallets with
  | none => rw [hf] at hbal; simp at hbal
  | some w0 =>
    rw [hf] at hbal
    simp only [Option.map_some', Option.some.injEq] at hbal
    have := hn w0 (List.mem_of_find?_eq_some hf)
    omega

/-- The inventory read by `findProduct` is non-negative in a non-negative
state. -/
theorem nonneg_inventory {s : Store} {p : String} {prod : Product}
    (hn : ∀ pr ∈ s.products, 0 ≤ pr.inventory)
    (hf : findProduct s p = some prod) : 0 ≤ prod.inventory :=
  hn prod (List.mem_of_find?_eq_some hf)

/-- One-step conservation preservation for every operation. -/
theorem conservation_step (init : String → Int) (s : Store) (op : Op)
    (h : Conservation init s) : Conservation init (execOp s op) := by
  cases op with
  | getBalanceOp u => exact h
  | searchProductsOp q => exact h
  | getProductOp p => exact h
  | getOrdersOp u l => exact h
  | addFundsOp u amt src crid tx now =>
    show Conservation init (add_funds s u amt src crid tx now).2
    unfold add_funds
    cases hb : addFundsBody s u amt src crid tx now with
    | error e => exact h
    | ok rs =>
      obtain ⟨r, s'⟩ := rs
      obtain ⟨hamt, huser, hcase⟩ := addFundsBody_ok hb
      rcases hcase with ⟨e, bal, hled, hbal, rfl, hr⟩ | ⟨bal, hled, hbal, rfl, hr⟩
      · exact h
      · exact conservation_update (applyTopup_wallets s u amt src crid tx now bal)
          (applyTopup_ledger s u amt src crid tx now bal) rfl rfl hbal h
  | purchaseOp u p q crid oid tx now =>
    show Conservation init (purchase s u p q crid oid tx now).2
    unfold purchase
    cases hb : purchaseBody s u p q crid oid tx now with
    | error e => exact h
    | ok rs =>
      obtain ⟨r, s'⟩ := rs
      obtain ⟨hq, huser, hcase⟩ := purchaseBody_ok hb
      rcases hcase with ⟨e, oid0, bal, ipid, iqty, iprice, nm, ord,
          hled, hmeta, hne, hbal, hitem, hord, rfl, hr⟩ |
        ⟨prod, bal, hled, hprod, hinv, hbal, hfunds, rfl, hr⟩
      · exact h
      · refine conservation_update ?_ (applyPurchase_ledger s u p q crid oid tx now
          prod.price_cents prod.inventory bal) rfl rfl hbal h
        rw [applyPurchase_wallets]
        have : ∀ w : WalletRow,
            (if w.user_id = u then { w with balance_cents := bal - prod.price_cents * q } else w) =
            (if w.user_id = u then { w with balance_cents := bal + -(prod.price_cents * q) } else w) := by
          intro w; by_cases hh : w.user_id = u <;> simp [hh, sub_eq_add_neg]
        simp only [this]

/-- One-step non-negativity preservation for every operation. -/
theorem nonneg_step (s : Store) (op : Op) (h : NonNegState s) :
    NonNegState (execOp s op) := by
  obtain ⟨hwall, hprodn⟩ := h
  cases op with
  | getBalanceOp u => exact ⟨hwall, hprodn⟩
  | searchProductsOp q => exact ⟨hwall, hprodn⟩
  | getProductOp p => exact ⟨hwall, hprodn⟩
  | getOrdersOp u l => exact ⟨hwall, hprodn⟩
  | addFundsOp u amt src crid tx now =>
    show NonNegState (add_funds s u amt src crid tx now).2
    unfold add_funds
    cases hb : addFundsBody s u amt src crid tx now with
    | error e => exact ⟨hwall, hprodn⟩
    | ok rs =>
      obtain ⟨r, s'⟩ := rs
      obtain ⟨hamt, huser, hcase⟩ := addFundsBody_ok hb
      rcases hcase with ⟨e, bal, hled, hbal, rfl, hr⟩ | ⟨bal, hled, hbal, rfl, hr⟩
      · exact ⟨hwall, hprodn⟩
      · constructor
        · exact nonneg_wallets_update (applyTopup_wallets s u amt src crid tx now bal)
            (by have := nonneg_balance hwall hbal; omega) hwall
        · rw [applyTopup_products]
          exact hprodn
  | purchaseOp u p q crid oid tx now =>
    show NonNegState (purchase s u p q crid oid tx now).2
    unfold purchase
    cases hb : purchaseBody s u p q crid oid tx now with
    | error e => exact ⟨hwall, hprodn⟩
    | ok rs =>
      obtain ⟨r, s'⟩ := rs
      obtain ⟨hq, huser, hcase⟩ := purchaseBody_ok hb
      rcases hcase with ⟨e, oid0, bal, ipid, iqty, iprice, nm, ord,
          hled, hmeta, hne, hbal, hitem, hord, rfl, hr⟩ |
        ⟨prod, bal, hled, hprod, hinv, hbal, hfunds, rfl, hr⟩
      · exact ⟨hwall, hprodn⟩
      · constructor
        · exact nonneg_wallets_update
            (applyPurchase_wallets s u p q crid oid tx now prod.price_cents prod.inventory bal)
            (by omega) hwall
        · exact nonneg_products_update
            (applyPurchase_products s u p q crid oid tx now prod.price_cents prod.inventory bal)
            (by omega) hprodn

/-! ## Path computation lemmas -/

theorem add_funds_ok_body {s s' : Store} {u : String} {amt : Int} {src crid tx now : String}
    {r : AddFundsResponse}
    (h : add_funds s u amt src crid tx now = (.ok r, s')) :
    addFundsBody s u amt src crid tx now = .ok (r, s') := by
  unfold add_funds at h
  cases hb : addFundsBody s u amt src crid tx now with
  | error e => rw [hb] at h; simp at h
  | ok pr =>
    obtain ⟨r0, s0⟩ := pr
    rw [hb] at h
    simp only [Prod.mk.injEq, Except.ok.injEq] at h
    rw [h.1, h.2]

theorem purchase_ok_body {s s' : Store} {u p : String} {q : Int} {crid oid tx now : String}
    {r : PurchaseResponse}
    (h : purchase s u p q crid oid tx now = (.ok r, s')) :
    purchaseBody s u p q crid oid tx now = .ok (r, s') := by
  unfold purchase at h
  cases hb : purchaseBody s u p q crid oid tx now with
  | error e => rw [hb] at h; simp at h
  | ok pr =>
    obtain ⟨r0, s0⟩ := pr
    rw [hb] at h
    simp only [Prod.mk.injEq, Except.ok.injEq] at h
    rw [h.1, h.2]

/-- Evaluation of the `add_funds` body on the idempotent-replay branch. -/
theorem addFundsBody_replay {s : Store} {u crid : String} {amt : Int} (src tx now : String)
    {e : LedgerRow} {bal : Int}
    (hamt : 0 < amt) (huser : userExists s u = true)
    (hled : getLedgerByClientRequest s crid = some e)
    (hbal : walletBalance? s u = some bal) :
    addFundsBody s u amt src crid tx now = .ok (⟨u, e.amount_cents, bal, e.tx_id⟩, s) := by
  unfold addFundsBody
  rw [if_neg (by omega : ¬ amt ≤ 0), huser]
  simp [hled, hbal]

/-- Evaluation of the `add_funds` body on the first-time top-up path. -/
theorem addFundsBody_normal {s : Store} {u crid : String} {amt : Int} (src tx now : String)
    {bal : Int}
    (hamt : 0 < amt) (huser : userExists s u = true)
    (hled : getLedgerByClientRequest s crid = none)
    (hbal : walletBalance? s u = some bal) :
    addFundsBody s u amt src crid tx now =
      .ok (⟨u, amt, bal + amt, tx⟩, applyTopup s u amt src crid tx now bal) := by
  unfold addFundsBody
  rw [if_neg (by omega : ¬ amt ≤ 0), huser]
  simp [hled, hbal]

/-- Evaluation of the `purchase` body on the idempotent-replay branch. -/
theorem purchaseBody_replay {s : Store} {u p crid : String} {q : Int} (oid2 tx now : String)
    {e : LedgerRow} {oid0 : String} {bal : Int} {ipid : String} {iqty iprice : Int}
    {nm : String} {ord : OrderRow}
    (hq : ¬ q ≤ 0) (huser : userExists s u = true)
    (hled : getLedgerByClientRequest s crid = some e)
    (hmeta : e.metadata.orderId? = some oid0) (hne : oid0 ≠ "")
    (hbal : walletBalance? s u = some bal)
    (hitem : findOrderItemJoined s oid0 = some (ipid, iqty, iprice, nm))
    (hord : s.orders.find? (fun o => o.order_id = oid0) = some ord) :
    purchaseBody s u p q crid oid2 tx now =
      .ok (⟨u, oid0, ipid, iqty, iprice, ord.total_cents, bal⟩, s) := by
  unfold purchaseBody
  rw [if_neg hq, huser]
  simp [hled, hmeta, hne, hbal, hitem, hord]

/-- Evaluation of the `purchase` body on the first-time purchase path. -/
theorem purchaseBody_normal {s : Store} {u p : String} {q : Int} (crid oid tx now : String)
    {prod : Product} {bal : Int}
    (hq : ¬ q ≤ 0) (huser : userExists s u = true)
    (hled : getLedgerByClientRequest s crid = none)
    (hprod : findProduct s p = some prod) (hinv : ¬ prod.inventory < q)
    (hbal : walletBalance? s u = some bal) (hfunds : ¬ bal < prod.price_cents * q) :
    purchaseBody s u p q crid oid tx now =
      .ok (⟨u, oid, p, q, prod.price_cents, prod.price_cents * q,
            bal - prod.price_cents * q⟩,
           applyPurchase s u p q crid oid tx now prod.price_cents prod.inventory bal) := by
  unfold purchaseBody
  rw [if_neg hq, huser]
  simp [hled, hprod, hinv, hbal, hfunds]

/-! ## Idempotence of the two mutators -/

/-- A second `add_funds` call with an already-committed
`client_request_id` returns the first call's response and leaves the
store as the first call left it. -/
theorem add_funds_second_call {s s1 : Store} {u : String} {amt : Int}
    {src crid tx1 now1 : String} {r1 : AddFundsResponse} (tx2 now2 : String)
    (h1 : add_funds s u amt src crid tx1 now1 = (.ok r1, s1)) :
    add_funds s1 u amt src crid tx2 now2 = (.ok r1, s1) := by
  have hb := add_funds_ok_body h1
  obtain ⟨hamt, huser, hcase⟩ := addFundsBody_ok hb
  rcases hcase with ⟨e, bal, hled, hbal, hss, hr⟩ | ⟨bal, hled, hbal, hss, hr⟩
  · subst hss
    have h2 := addFundsBody_replay src tx2 now2 hamt huser hled hbal
    unfold add_funds
    rw [h2, hr]
  · subst hss
    set s1 := applyTopup s u amt src crid tx1 now1 bal with hs1
    have huser1 : userExists s1 u = true := by
      unfold userExists at huser ⊢
      rw [hs1, applyTopup_users]
      exact huser
    have hled1 : getLedgerByClientRequest s1 crid =
        some ⟨tx1, u, "TOPUP", amt, now1, crid, .topup src⟩ := by
      unfold getLedgerByClientRequest at hled ⊢
      rw [hs1, applyTopup_ledger, List.find?_append, hled]
      simp
    have hbal1 : walletBalance? s1 u = some (bal + amt) := by
      rw [hs1, applyTopup_balance, hbal]
      simp
    have h2 := addFundsBody_replay src tx2 now2 hamt huser1 hled1 hbal1
    unfold add_funds
    rw [h2, hr]

/-- A second `purchase` call with an already-committed
`client_request_id` returns the first call's response and leaves the
store as the first call left it.  The two freshness hypotheses record
that the generated `order_id` of the first call (a uuid in the source)
did not already occur in the `orders`/`order_items` tables. -/
theorem purchase_second_call {s s1 : Store} {u p : String} {q : Int}
    {crid oid1 tx1 now1 : String} {r1 : PurchaseResponse} (oid2 tx2 now2 : String)
    (hne : oid1 ≠ "")
    (hfo : ∀ o ∈ s.orders, o.order_id ≠ oid1)
    (hfi : ∀ oi ∈ s.order_items, oi.order_id ≠ oid1)
    (h1 : purchase s u p q crid oid1 tx1 now1 = (.ok r1, s1)) :
    purchase s1 u p q crid oid2 tx2 now2 = (.ok r1, s1) := by
  have hb := purchase_ok_body h1
  obtain ⟨hq, huser, hcase⟩ := purchaseBody_ok hb
  rcases hcase with ⟨e, oid0, bal, ipid, iqty, iprice, nm, ord,
      hled, hmeta, hne0, hbal, hitem, hord, hss, hr⟩ |
    ⟨prod, bal, hled, hprod, hinv, hbal, hfunds, hss, hr⟩
  · subst hss
    have h2 := purchaseBody_replay (p := p) oid2 tx2 now2 hq huser hled hmeta hne0 hbal hitem hord
    unfold purchase
    rw [h2, hr]
  · subst hss
    set s1 := applyPurchase s u p q crid oid1 tx1 now1 prod.price_cents prod.inventory bal
      with hs1
    have hpid : prod.product_id = p := by simpa using List.find?_some hprod
    have huser1 : userExists s1 u = true := by
      unfold userExists at huser ⊢
      rw [hs1, applyPurchase_users]
      exact huser
    have hled1 : getLedgerByClientRequest s1 crid =
        some ⟨tx1, u, "PURCHASE", -(prod.price_cents * q), now1, crid,
              .purchaseMeta oid1 p q⟩ := by
      unfold getLedgerByClientRequest at hled ⊢
      rw [hs1, applyPurchase_ledger, List.find?_append, hled]
      simp
    have hbal1 : walletBalance? s1 u = some (bal - prod.price_cents * q) := by
      rw [hs1, applyPurchase_balance, hbal]
      simp
    have hprod1 : findProduct s1 p = some { prod with inventory := prod.inventory - q } := by
      rw [hs1, applyPurchase_findProduct, hprod]
      simp [hpid]
    have hitem1 : findOrderItemJoined s1 oid1 =
        some (p, q, prod.price_cents, prod.name) := by
      unfold findOrderItemJoined
      have hoi : s1.order_items = s.order_items ++
          [{ order_id := oid1, product_id := p, quantity := q,
             unit_price_cents := prod.price_cents }] := by
        rw [hs1, applyPurchase_order_items]
      rw [hoi, List.filterMap_append]
      have hpre : (s.order_items.filterMap fun oi =>
          if oi.order_id = oid1 then
            (findProduct s1 oi.product_id).map
              (fun pr => (oi.product_id, oi.quantity, oi.unit_price_cents, pr.name))
          else none) = [] := by
        refine List.filterMap_eq_nil_iff.2 (fun oi hmem => ?_)
        rw [if_neg (hfi oi hmem)]
      rw [hpre]
      simp [hprod1]
    have hord1 : s1.orders.find? (fun o => o.order_id = oid1) =
        some { order_id := oid1, user_id := u, created_at := now1,
               status := "PLACED", total_cents := prod.price_cents * q } := by
      have ho : s1.orders = s.orders ++
          [{ order_id := oid1, user_id := u, created_at := now1,
             status := "PLACED", total_cents := prod.price_cents * q }] := by
        rw [hs1, applyPurchase_orders]
      rw [ho, List.find?_append]
      have hpre : s.orders.find? (fun o => decide (o.order_id = oid1)) = none :=
        List.find?_eq_none.2 (fun o hmem => by simp [hfo o hmem])
      rw [hpre]
      simp
    have h2 := purchaseBody_replay (p := p) oid2 tx2 now2 hq huser1 hled1 rfl hne hbal1 hitem1 hord1
    unfold purchase
    rw [h2, hr]

/-! ## Further helper lemmas -/

theorem insertLe_ne_nil {α : Type} (le : α → α → Bool) (a : α) (l : List α) :
    insertLe le a l ≠ [] := by
  cases l with
  | nil => simp [insertLe]
  | cons b t =>
    unfold insertLe
    split <;> simp

theorem sortBy_eq_nil {α : Type} (le : α → α → Bool) (l : List α) :
    sortBy le l = [] ↔ l = [] := by
  cases l with
  | nil => simp [sortBy]
  | cons a t =>
    simp only [sortBy]
    constructor
    · intro h
      exact absurd h (insertLe_ne_nil le a (sortBy le t))
    · intro h
      exact absurd h (by simp)

/-- First-time `add_funds` success: the balance moves up by exactly the
amount of the single appended `TOPUP` ledger entry. -/
theorem add_funds_first_delta {s : Store} {u : String} {amt : Int}
    {src crid tx now : String} {r : AddFundsResponse} {s' : Store}
    (hfresh : getLedgerByClientRequest s crid = none)
    (h : add_funds s u amt src crid tx now = (.ok r, s')) :
    ∃ bal, walletBalance? s u = some bal ∧
      walletBalance? s' u = some (bal + amt) ∧
      s'.ledger = s.ledger ++ [⟨tx, u, "TOPUP", amt, now, crid, .topup src⟩] := by
  have hb := add_funds_ok_body h
  obtain ⟨hamt, huser, hcase⟩ := addFundsBody_ok hb
  rcases hcase with ⟨e, bal, hled, hbal, hss, hr⟩ | ⟨bal, hled, hbal, hss, hr⟩
  · rw [hled] at hfresh
    exact absurd hfresh (by simp)
  · subst hss
    refine ⟨bal, hbal, ?_, applyTopup_ledger s u amt src crid tx now bal⟩
    rw [applyTopup_balance, hbal]
    simp

/-- First-time `purchase` success: the balance moves down by exactly the
(absolute value of the) amount of the single appended `PURCHASE` ledger
entry, and the guards on inventory and funds were checked. -/
theorem purchase_first_delta {s : Store} {u p : String} {q : Int}
    {crid oid tx now : String} {r : PurchaseResponse} {s' : Store}
    (hfresh : getLedgerByClientRequest s crid = none)
    (h : purchase s u p q crid oid tx now = (.ok r, s')) :
    ∃ prod bal, findProduct s p = some prod ∧ walletBalance? s u = some bal ∧
      q ≤ prod.inventory ∧ prod.price_cents * q ≤ bal ∧
      r.total_cents = prod.price_cents * q ∧
      walletBalance? s' u = some (bal - r.total_cents) ∧
      s'.ledger = s.ledger ++ [⟨tx, u, "PURCHASE", -r.total_cents, now, crid,
                                .purchaseMeta oid p q⟩] := by
  have hb := purchase_ok_body h
  obtain ⟨hq, huser, hcase⟩ := purchaseBody_ok hb
  rcases hcase with ⟨e, oid0, bal, ipid, iqty, iprice, nm, ord,
      hled, hmeta, hne0, hbal, hitem, hord, hss, hr⟩ |
    ⟨prod, bal, hled, hprod, hinv, hbal, hfunds, hss, hr⟩
  · rw [hled] at hfresh
    exact absurd hfresh (by simp)
  · subst hss
    have hrt : r.total_cents = prod.price_cents * q := by rw [hr]
    refine ⟨prod, bal, hprod, hbal, by omega, by omega, hrt, ?_, ?_⟩
    · rw [applyPurchase_balance, hbal, hrt]
      simp
    · rw [applyPurchase_ledger, hrt]

/-- `add_funds` never lowers any wallet's balance. -/
theorem add_funds_monotone (s : Store) (u : String) (amt : Int)
    (src crid tx now : String) (u' : String) (b b' : Int)
    (h1 : walletBalance? s u' = some b)
    (h2 : walletBalance? (add_funds s u amt src crid tx now).2 u' = some b') :
    b ≤ b' := by
  cases hb : addFundsBody s u amt src crid tx now with
  | error e =>
    have hsnd : (add_funds s u amt src crid tx now).2 = s := by
      unfold add_funds; rw [hb]
    rw [hsnd, h1] at h2
    simp only [Option.some.injEq] at h2
    omega
  | ok pr =>
    obtain ⟨r, s'⟩ := pr
    have hsnd : (add_funds s u amt src crid tx now).2 = s' := by
      unfold add_funds; rw [hb]
    obtain ⟨hamt, huser, hcase⟩ := addFundsBody_ok hb
    rcases hcase with ⟨e, bal, hled, hbal, hss, hr⟩ | ⟨bal, hled, hbal, hss, hr⟩
    · subst hss
      rw [hsnd, h1] at h2
      simp only [Option.some.injEq] at h2
      omega
    · subst hss
      rw [hsnd, applyTopup_balance, h1] at h2
      simp only [Option.map_some', Option.some.injEq] at h2
      by_cases hu : u' = u
      · subst hu
        rw [h1] at hbal
        simp only [Option.some.injEq] at hbal
        rw [if_pos rfl] at h2
        omega
      · rw [if_neg hu] at h2
        omega

/-- Non-negativity is preserved along any sequence of operations. -/
theorem nonneg_ops (ops : List Op) : ∀ s : Store,
    NonNegState s → NonNegState (ops.foldl execOp s) := by
  induction ops with
  | nil => intro s h; exact h
  | cons op rest ih => intro s h; exact ih _ (nonneg_step s op h)

/-- A failed `purchase` rolls its transaction back: the committed store
is exactly the pre-call store. -/
theorem purchase_error_rollback (s : Store) (u p : String) (q : Int)
    (crid oid tx now : String) (e : ToolErr)
    (h : (purchase s u p q crid oid tx now).1 = .error e) :
    (purchase s u p q crid oid tx now).2 = s := by
  cases hb : purchaseBody s u p q crid oid tx now with
  | error e2 =>
    unfold purchase
    rw [hb]
  | ok pr =>
    obtain ⟨r, s'⟩ := pr
    have hfst : (purchase s u p q crid oid tx now).1 = .ok r := by
      unfold purchase; rw [hb]
    rw [hfst] at h
    simp at h

/-! ## Claims -/

/-- C1: idempotence of the two mutating operations.  If a first call to
`add_funds` (resp. `purchase`) succeeds, a second call with the same
arguments and the same `client_request_id` (fresh uuid/timestamp inputs
are allowed to differ) returns exactly the first call's response and
leaves the store exactly as the first call left it — the effect is not
re-applied.  The purchase side assumes the uuid freshness of the first
call's generated `order_id`. -/
theorem claim_idempotence :
    (∀ (s s1 : Store) (u : String) (amt : Int) (src crid tx1 now1 tx2 now2 : String)
        (r1 : AddFundsResponse),
        add_funds s u amt src crid tx1 now1 = (.ok r1, s1) →
        add_funds s1 u amt src crid tx2 now2 = (.ok r1, s1)) ∧
    (∀ (s s1 : Store) (u p : String) (q : Int)
        (crid oid1 tx1 now1 oid2 tx2 now2 : String) (r1 : PurchaseResponse),
        oid1 ≠ "" → (∀ o ∈ s.orders, o.order_id ≠ oid1) →
        (∀ oi ∈ s.order_items, oi.order_id ≠ oid1) →
        purchase s u p q crid oid1 tx1 now1 = (.ok r1, s1) →
        purchase s1 u p q crid oid2 tx2 now2 = (.ok r1, s1)) :=
  ⟨fun _ _ _ _ _ _ _ _ tx2 now2 _ h => add_funds_second_call tx2 now2 h,
   fun _ _ _ _ _ _ _ _ _ oid2 tx2 now2 _ hne hfo hfi h =>
     purchase_second_call oid2 tx2 now2 hne hfo hfi h⟩

theorem claim_idempotence_witness :
    purchase ((purchase demoStore "u_1002" "p_2001" 1 "req1" "o_1" "tx_1" "t0").2)
        "u_1002" "p_2001" 1 "req1" "o_2" "tx_2" "t1" =
      (.ok ⟨"u_1002", "o_1", "p_2001", 1, 899, 899, 301⟩,
       (purchase demoStore "u_1002" "p_2001" 1 "req1" "o_1" "tx_1" "t0").2) :=
  claim_idempotence.2 demoStore
    ((purchase demoStore "u_1002" "p_2001" 1 "req1" "o_1" "tx_1" "t0").2)
    "u_1002" "p_2001" 1 "req1" "o_1" "tx_1" "t0" "o_2" "tx_2" "t1"
    ⟨"u_1002", "o_1", "p_2001", 1, 899, 899, 301⟩
    (by decide) (by decide) (by decide) (by decide)

/-- C2: balance conservation.  Every operation (read or mutator,
successful or failed) preserves the invariant "balance equals the initial
balance plus the user's ledger sum"; moreover a first-time successful
`add_funds` (resp. `purchase`) moves the wallet balance by exactly the
signed `amount_cents` of the one `TOPUP` (resp. `PURCHASE`) ledger entry
it appends. -/
theorem claim_balance_conservation :
    (∀ (init : String → Int) (s : Store) (op : Op),
        Conservation init s → Conservation init (execOp s op)) ∧
    (∀ (s : Store) (u : String) (amt : Int) (src crid tx now : String)
        (r : AddFundsResponse) (s' : Store),
        getLedgerByClientRequest s crid = none →
        add_funds s u amt src crid tx now = (.ok r, s') →
        ∃ bal, walletBalance? s u = some bal ∧
          walletBalance? s' u = some (bal + amt) ∧
          s'.ledger = s.ledger ++ [⟨tx, u, "TOPUP", amt, now, crid, .topup src⟩]) ∧
    (∀ (s : Store) (u p : String) (q : Int) (crid oid tx now : String)
        (r : PurchaseResponse) (s' : Store),
        getLedgerByClientRequest s crid = none →
        purchase s u p q crid oid tx now = (.ok r, s') →
        ∃ bal, walletBalance? s u = some bal ∧
          walletBalance? s' u = some (bal - r.total_cents) ∧
          s'.ledger = s.ledger ++ [⟨tx, u, "PURCHASE", -r.total_cents, now, crid,
                                    .purchaseMeta oid p q⟩]) := by
  refine ⟨conservation_step, ?_, ?_⟩
  · intro s u amt src crid tx now r s' hf h
    exact add_funds_first_delta hf h
  · intro s u p q crid oid tx now r s' hf h
    obtain ⟨prod, bal, hp, hb, _, _, _, hwa, hl⟩ := purchase_first_delta hf h
    exact ⟨bal, hb, hwa, hl⟩

theorem claim_balance_conservation_witness :
    Conservation demoInit
      (execOp demoStore (.addFundsOp "u_1001" 500 "card" "rq" "tx9" "t9")) :=
  claim_balance_conservation.1 demoInit demoStore
    (.addFundsOp "u_1001" 500 "card" "rq" "tx9" "t9")
    (by unfold Conservation ledgerSum ledgerSumL; decide)

/-- C3: non-negativity.  From any state with non-negative balances and
inventories, no sequence of the six operations ever produces a negative
balance or inventory; a first-time successful purchase had
`inventory ≥ quantity` and `balance ≥ price·quantity` checked, and
`add_funds` never lowers any balance. -/
theorem claim_non_negativity :
    (∀ (s : Store) (ops : List Op), NonNegState s → NonNegState (ops.foldl execOp s)) ∧
    (∀ (s : Store) (u p : String) (q : Int) (crid oid tx now : String)
        (r : PurchaseResponse) (s' : Store),
        getLedgerByClientRequest s crid = none →
        purchase s u p q crid oid tx now = (.ok r, s') →
        ∃ prod bal, findProduct s p = some prod ∧ walletBalance? s u = some bal ∧
          q ≤ prod.inventory ∧ prod.price_cents * q ≤ bal) ∧
    (∀ (s : Store) (u : String) (amt : Int) (src crid tx now : String)
        (u' : String) (b b' : Int),
        walletBalance? s u' = some b →
        walletBalance? (add_funds s u amt src crid tx now).2 u' = some b' → b ≤ b') := by
  refine ⟨fun s ops h => nonneg_ops ops s h, ?_, add_funds_monotone⟩
  intro s u p q crid oid tx now r s' hf h
  obtain ⟨prod, bal, hp, hb, h1, h2, _, _, _⟩ := purchase_first_delta hf h
  exact ⟨prod, bal, hp, hb, h1, h2⟩

theorem claim_non_negativity_witness :
    NonNegState ([Op.purchaseOp "u_1002" "p_2001" 1 "r1" "o1" "t1" "n1",
                  Op.addFundsOp "u_1001" 500 "card" "r2" "t2" "n2"].foldl execOp demoStore) :=
  claim_non_negativity.1 demoStore
    [Op.purchaseOp "u_1002" "p_2001" 1 "r1" "o1" "t1" "n1",
     Op.addFundsOp "u_1001" 500 "card" "r2" "t2" "n2"]
    (by unfold NonNegState; decide)

/-- C4: atomicity of `purchase` on error.  Whenever `purchase` fails with
any error, the committed store — wallets, products, orders, order items
and ledger included — is exactly the pre-call store. -/
theorem claim_purchase_atomicity (s : Store) (u p : String) (q : Int)
    (crid oid tx now : String) (e : ToolErr)
    (h : (purchase s u p q crid oid tx now).1 = .error e) :
    (purchase s u p q crid oid tx now).2 = s ∧
    (purchase s u p q crid oid tx now).2.wallets = s.wallets ∧
    (purchase s u p q crid oid tx now).2.products = s.products ∧
    (purchase s u p q crid oid tx now).2.orders = s.orders ∧
    (purchase s u p q crid oid tx now).2.order_items = s.order_items ∧
    (purchase s u p q crid oid tx now).2.ledger = s.ledger := by
  have hs := purchase_error_rollback s u p q crid oid tx now e h
  exact ⟨hs, by rw [hs], by rw [hs], by rw [hs], by rw [hs], by rw [hs]⟩

theorem claim_purchase_atomicity_witness :
    (purchase demoStore "u_1002" "p_2002" 1 "rq" "o9" "t9" "n9").2 = demoStore :=
  (claim_purchase_atomicity demoStore "u_1002" "p_2002" 1 "rq" "o9" "t9" "n9"
    .InsufficientFunds (by decide)).1

/-- C5: postconditions of a first-time successful purchase: the response
carries `total = price · quantity` and the debited balance, exactly one
`PLACED` order and one order item (with the price snapshotted at call
time) are appended, the inventory drops by `quantity` and the balance by
`total`. -/
theorem claim_purchase_postconditions (s : Store) (u p : String) (q : Int)
    (crid oid tx now : String) (prod : Product) (bal : Int)
    (huser : userExists s u = true) (hprod : findProduct s p = some prod)
    (hbal : walletBalance? s u = some bal) (hq : 0 < q)
    (hinv : q ≤ prod.inventory) (hfunds : prod.price_cents * q ≤ bal)
    (hfresh : getLedgerByClientRequest s crid = none) :
    ∃ s', purchase s u p q crid oid tx now =
        (.ok ⟨u, oid, p, q, prod.price_cents, prod.price_cents * q,
              bal - prod.price_cents * q⟩, s') ∧
      s'.orders = s.orders ++ [⟨oid, u, now, "PLACED", prod.price_cents * q⟩] ∧
      s'.order_items = s.order_items ++ [⟨oid, p, q, prod.price_cents⟩] ∧
      walletBalance? s' u = some (bal - prod.price_cents * q) ∧
      findProduct s' p = some { prod with inventory := prod.inventory - q } := by
  have hq' : ¬ q ≤ 0 := by omega
  have hinv' : ¬ prod.inventory < q := by omega
  have hfunds' : ¬ bal < prod.price_cents * q := by omega
  have h2 := purchaseBody_normal crid oid tx now hq' huser hfresh hprod hinv' hbal hfunds'
  refine ⟨applyPurchase s u p q crid oid tx now prod.price_cents prod.inventory bal,
    ?_, applyPurchase_orders s u p q crid oid tx now prod.price_cents prod.inventory bal,
    applyPurchase_order_items s u p q crid oid tx now prod.price_cents prod.inventory bal,
    ?_, ?_⟩
  · unfold purchase
    rw [h2]
  · rw [applyPurchase_balance, hbal]
    simp
  · have hpid : prod.product_id = p := by simpa using List.find?_some hprod
    rw [applyPurchase_findProduct, hprod]
    simp [hpid]

theorem claim_purchase_postconditions_witness :
    ∃ s', purchase demoStore "u_1002" "p_2001" 1 "rq" "o9" "tx9" "t9" =
        (.ok ⟨"u_1002", "o9", "p_2001", 1, 899, 899 * 1, 1200 - 899 * 1⟩, s') ∧
      s'.orders = demoStore.orders ++ [⟨"o9", "u_1002", "t9", "PLACED", 899 * 1⟩] ∧
      s'.order_items = demoStore.order_items ++ [⟨"o9", "p_2001", 1, 899⟩] ∧
      walletBalance? s' "u_1002" = some (1200 - 899 * 1) ∧
      findProduct s' "p_2001" = some ⟨"p_2001", "USB-C Cable (1m)", 899, 25 - 1⟩ :=
  claim_purchase_postconditions demoStore "u_1002" "p_2001" 1 "rq" "o9" "tx9" "t9"
    ⟨"p_2001", "USB-C Cable (1m)", 899, 25⟩ 1200
    (by decide) (by decide) (by decide) (by decide) (by decide) (by decide) (by decide)

/-- C7: `add_funds` replay semantics: with a `client_request_id` already
present in the ledger, the call performs no write and returns the stored
entry's `amount_cents` (not the current call's amount argument), the
stored `tx_id`, and the wallet balance as currently read. -/
theorem claim_add_funds_replay (s : Store) (u : String) (amt : Int)
    (src crid tx now : String) (e : LedgerRow) (bal : Int)
    (hamt : 0 < amt) (huser : userExists s u = true)
    (hled : getLedgerByClientRequest s crid = some e)
    (hbal : walletBalance? s u = some bal) :
    add_funds s u amt src crid tx now = (.ok ⟨u, e.amount_cents, bal, e.tx_id⟩, s) := by
  unfold add_funds
  rw [addFundsBody_replay src tx now hamt huser hled hbal]

theorem claim_add_funds_replay_witness :
    add_funds ((add_funds demoStore "u_1001" 5000 "card" "reqA" "tx_A" "t0").2)
        "u_1001" 777 "bank" "reqA" "tx_B" "t1" =
      (.ok ⟨"u_1001", 5000, 7500, "tx_A"⟩,
       (add_funds demoStore "u_1001" 5000 "card" "reqA" "tx_A" "t0").2) :=
  claim_add_funds_replay ((add_funds demoStore "u_1001" 5000 "card" "reqA" "tx_A" "t0").2)
    "u_1001" 777 "bank" "reqA" "tx_B" "t1"
    ⟨"tx_A", "u_1001", "TOPUP", 5000, "t0", "reqA", .topup "card"⟩ 7500
    (by decide) (by decide) (by decide) (by decide)

/-- C9: the four read accessors return the store they were given on every
input — they never mutate any table. -/
theorem claim_read_accessors_pure (s : Store) :
    (∀ u, (get_balance s u).2 = s) ∧ (∀ q, (search_products s q).2 = s) ∧
    (∀ p, (get_product s p).2 = s) ∧ (∀ u l, (get_orders s u l).2 = s) :=
  ⟨fun _ => rfl, fun _ => rfl, fun _ => rfl, fun _ _ => rfl⟩

/-- C10: the replay branch of `add_funds` never inspects the ledger
entry's `kind`: after a first-time successful purchase, calling
`add_funds` with the purchase's `client_request_id` and any positive
amount succeeds without writing and returns the purchase entry's negative
`amount_cents` as `added_cents`. -/
theorem claim_add_funds_ignores_kind (s s1 : Store) (u p : String) (q : Int)
    (crid oid tx now : String) (r : PurchaseResponse)
    (amt2 : Int) (src2 tx2 now2 : String)
    (hfresh : getLedgerByClientRequest s crid = none)
    (h1 : purchase s u p q crid oid tx now = (.ok r, s1))
    (hamt : 0 < amt2) :
    add_funds s1 u amt2 src2 crid tx2 now2 =
      (.ok ⟨u, -r.total_cents, r.new_balance_cents, tx⟩, s1) ∧
    (0 < r.total_cents → -r.total_cents < 0) := by
  have hb := purchase_ok_body h1
  obtain ⟨hq, huser, hcase⟩ := purchaseBody_ok hb
  rcases hcase with ⟨e, oid0, bal, ipid, iqty, iprice, nm, ord,
      hled, hmeta, hne0, hbal, hitem, hord, hss, hr⟩ |
    ⟨prod, bal, hled, hprod, hinv, hbal, hfunds, hss, hr⟩
  · rw [hled] at hfresh
    exact absurd hfresh (by simp)
  · subst hr
    subst hss
    have huser1 : userExists
        (applyPurchase s u p q crid oid tx now prod.price_cents prod.inventory bal) u = true := by
      unfold userExists at huser ⊢
      rw [applyPurchase_users]
      exact huser
    have hled1 : getLedgerByClientRequest
        (applyPurchase s u p q crid oid tx now prod.price_cents prod.inventory bal) crid =
        some ⟨tx, u, "PURCHASE", -(prod.price_cents * q), now, crid, .purchaseMeta oid p q⟩ := by
      unfold getLedgerByClientRequest at hled ⊢
      rw [applyPurchase_ledger, List.find?_append, hled]
      simp
    have hbal1 : walletBalance?
        (applyPurchase s u p q crid oid tx now prod.price_cents prod.inventory bal) u =
        some (bal - prod.price_cents * q) := by
      rw [applyPurchase_balance, hbal]
      simp
    constructor
    · have h2 := addFundsBody_replay src2 tx2 now2 hamt huser1 hled1 hbal1
      unfold add_funds
      rw [h2]
    · intro hpos
      have hpos' : 0 < prod.price_cents * q := hpos
      show -(prod.price_cents * q) < 0
      omega

theorem claim_add_funds_ignores_kind_witness :
    (add_funds ((purchase demoStore "u_1002" "p_2001" 1 "req1" "o_1" "tx_1" "t0").2)
        "u_1002" 100 "card" "req1" "tx_C" "t2" =
      (.ok ⟨"u_1002", -899, 301, "tx_1"⟩,
       (purchase demoStore "u_1002" "p_2001" 1 "req1" "o_1" "tx_1" "t0").2)) ∧
    (-899 : Int) < 0 := by
  have h := claim_add_funds_ignores_kind demoStore
      ((purchase demoStore "u_1002" "p_2001" 1 "req1" "o_1" "tx_1" "t0").2)
      "u_1002" "p_2001" 1 "req1" "o_1" "tx_1" "t0"
      ⟨"u_1002", "o_1", "p_2001", 1, 899, 899, 301⟩ 100 "card" "tx_C" "t2"
      (by decide) (by decide) (by decide)
  exact ⟨h.1, h.2 (by decide)⟩


/-- C6: the failure conditions of `purchase` for a fresh
`client_request_id`, in check order: `InvalidQuantity` iff `quantity ≤ 0`,
then `UnknownUser`, then `UnknownProduct`, then `InsufficientInventory`
iff `inventory < quantity` (the wallet is not consulted yet), then
`InsufficientFunds` iff `balance < price·quantity`; every failing call
issues no write. -/
theorem claim_purchase_error_order (s : Store) (u p : String) (q : Int)
    (crid oid tx now : String)
    (hfresh : getLedgerByClientRequest s crid = none) :
    ((purchase s u p q crid oid tx now).1 = .error .InvalidQuantity ↔ q ≤ 0) ∧
    (0 < q → ((purchase s u p q crid oid tx now).1 = .error .UnknownUser ↔
        userExists s u = false)) ∧
    (0 < q → userExists s u = true →
      ((purchase s u p q crid oid tx now).1 = .error .UnknownProduct ↔
        findProduct s p = none)) ∧
    (∀ prod, 0 < q → userExists s u = true → findProduct s p = some prod →
      ((purchase s u p q crid oid tx now).1 = .error .InsufficientInventory ↔
        prod.inventory < q)) ∧
    (∀ prod bal, 0 < q → userExists s u = true → findProduct s p = some prod →
      q ≤ prod.inventory → walletBalance? s u = some bal →
      ((purchase s u p q crid oid tx now).1 = .error .InsufficientFunds ↔
        bal < prod.price_cents * q)) ∧
    (∀ e, (purchase s u p q crid oid tx now).1 = .error e →
      (purchase s u p q crid oid tx now).2 = s) := by
  have hres : ∀ X, purchaseBody s u p q crid oid tx now = .error X →
      (purchase s u p q crid oid tx now).1 = .error X := by
    intro X hb
    unfold purchase
    rw [hb]
  have hatom := fun e => purchase_error_rollback s u p q crid oid tx now e
  by_cases hq : q ≤ 0
  · have hb : purchaseBody s u p q crid oid tx now = .error .InvalidQuantity := by
      unfold purchaseBody
      rw [if_pos hq]
    have h1 := hres _ hb
    refine ⟨by simp [h1, hq], ?_, ?_, ?_, ?_, hatom⟩
    · intro h0; omega
    · intro h0; omega
    · intro prod h0; omega
    · intro prod bal h0; omega
  · cases hu : userExists s u with
    | false =>
      have hb : purchaseBody s u p q crid oid tx now = .error .UnknownUser := by
        unfold purchaseBody
        rw [if_neg hq, hu]
        rfl
      have h1 := hres _ hb
      refine ⟨by simp [h1, hq], by simp [h1], ?_, ?_, ?_, hatom⟩
      · intro _ habs
        exact absurd habs (by decide)
      · intro prod _ habs
        exact absurd habs (by decide)
      · intro prod bal _ habs
        exact absurd habs (by decide)
    | true =>
      cases hp : findProduct s p with
      | none =>
        have hb : purchaseBody s u p q crid oid tx now = .error .UnknownProduct := by
          unfold purchaseBody
          rw [if_neg hq, hu, hfresh, hp]
          rfl
        have h1 := hres _ hb
        refine ⟨by simp [h1, hq], by simp [h1], by simp [h1], ?_, ?_, hatom⟩
        · intro prod _ _ habs
          exact absurd habs (by simp)
        · intro prod bal _ _ habs
          exact absurd habs (by simp)
      | some prod =>
        by_cases hi : prod.inventory < q
        · have hb : purchaseBody s u p q crid oid tx now =
              .error .InsufficientInventory := by
            unfold purchaseBody
            rw [if_neg hq, hu, hfresh, hp]
            simp [hi]
          have h1 := hres _ hb
          refine ⟨by simp [h1, hq], by simp [h1], by simp [h1], ?_, ?_, hatom⟩
          · intro prod' _ _ hsome
            injection hsome with hpe
            subst hpe
            simp [h1, hi]
          · intro prod' bal _ _ hsome hinv hw
            injection hsome with hpe
            subst hpe
            exact absurd hinv (by omega)
        · cases hw : walletBalance? s u with
          | none =>
            have hb : purchaseBody s u p q crid oid tx now = .error .WalletNotFound := by
              unfold purchaseBody
              rw [if_neg hq, hu, hfresh, hp]
              simp [hi, hw]
            have h1 := hres _ hb
            refine ⟨by simp [h1, hq], by simp [h1], by simp [h1], ?_, ?_, hatom⟩
            · intro prod' _ _ hsome
              injection hsome with hpe
              subst hpe
              simp [h1, hi]
            · intro prod' bal _ _ hsome hinv hwal
              exact absurd hwal (by simp)
          | some bal =>
            by_cases hf2 : bal < prod.price_cents * q
            · have hb : purchaseBody s u p q crid oid tx now =
                  .error .InsufficientFunds := by
                unfold purchaseBody
                rw [if_neg hq, hu, hfresh, hp]
                simp [hi, hw, hf2]
              have h1 := hres _ hb
              refine ⟨by simp [h1, hq], by simp [h1], by simp [h1], ?_, ?_, hatom⟩
              · intro prod' _ _ hsome
                injection hsome with hpe
                subst hpe
                simp [h1, hi]
              · intro prod' bal' _ _ hsome hinv hwal
                injection hsome with hpe
                subst hpe
                injection hwal with hbe
                subst hbe
                simp [h1, hf2]
            · have hb := purchaseBody_normal crid oid tx now hq hu hfresh hp hi hw hf2
              have h1 : (purchase s u p q crid oid tx now).1 = .ok
                  ⟨u, oid, p, q, prod.price_cents, prod.price_cents * q,
                   bal - prod.price_cents * q⟩ := by
                unfold purchase
                rw [hb]
              refine ⟨by simp [h1, hq], by simp [h1], by simp [h1], ?_, ?_, hatom⟩
              · intro prod' _ _ hsome
                injection hsome with hpe
                subst hpe
                simp [h1, hi]
              · intro prod' bal' _ _ hsome hinv hwal
                injection hsome with hpe
                subst hpe
                injection hwal with hbe
                subst hbe
                simp [h1, hf2]

theorem claim_purchase_error_order_witness :
    ((purchase demoStore "u_1002" "p_2012" 0 "rq" "o9" "t9" "n9").1 =
        .error .InvalidQuantity) ∧
    ((purchase demoStore "u_1002" "p_2002" 1 "rq" "o9" "t9" "n9").1 =
        .error .InsufficientFunds) :=
  ⟨(claim_purchase_error_order demoStore "u_1002" "p_2012" 0 "rq" "o9" "t9" "n9"
      (by decide)).1.mpr (by decide),
   ((claim_purchase_error_order demoStore "u_1002" "p_2002" 1 "rq" "o9" "t9" "n9"
      (by decide)).2.2.2.2.1 ⟨"p_2002", "Wireless Mouse", 1999, 12⟩ 1200
      (by decide) (by decide) (by decide) (by decide) (by decide)).mpr (by decide)⟩

/-- C8 (counterexample): on the catalog `{"axb"}` and the query `"a%b"`,
the code's unescaped `LIKE` pattern `%a%b%` matches `"axb"` and the
product is returned, although `"axb"` does not contain the substring
`"a%b"` — so the claim's description (substring containment, and word
containment in the fallback) predicts the empty result and is false. -/
theorem claim_search_products_counterexample :
    (search_products cexStore (some "a%b")).1 ≠
      search_products_claim cexStore (some "a%b") := by
  decide

/-- C8 (amended): `search_products` behaves as the claim states with
"contains" replaced by SQL `LIKE` matching of the unescaped pattern
`%query%` (`%`/`_` in the query act as wildcards) built from the
lowercased, whitespace-stripped query; the plural-stripped fallback words
are matched the same way.  For queries without `LIKE` wildcards and
without surrounding whitespace this coincides with case-insensitive
substring containment. -/
theorem claim_search_products_amended (s : Store) (q : String) :
    ((search_products s none).1.products = sortByName s.products) ∧
    (stripStr q = "" → (search_products s (some q)).1.products = sortByName s.products) ∧
    (stripStr q ≠ "" →
      (s.products.filter (fun pr =>
          likeMatch ("%" ++ lowerStr (stripStr q) ++ "%") (lowerStr pr.name)) ≠ [] →
        (search_products s (some q)).1.products =
          sortByName (s.products.filter (fun pr =>
            likeMatch ("%" ++ lowerStr (stripStr q) ++ "%") (lowerStr pr.name)))) ∧
      (s.products.filter (fun pr =>
          likeMatch ("%" ++ lowerStr (stripStr q) ++ "%") (lowerStr pr.name)) = [] →
        (search_products s (some q)).1.products =
          sortByName (s.products.filter (fun pr =>
            (queryWords (lowerStr (stripStr q))).any
              (fun w => likeMatch ("%" ++ w ++ "%") (lowerStr pr.name)))))) := by
  refine ⟨rfl, ?_, ?_⟩
  · intro hq
    simp only [search_products]
    rw [if_pos hq]
  · intro hq
    constructor
    · intro hne
      simp only [search_products]
      rw [if_neg hq]
      have hlen : ¬ (sortByName (s.products.filter (fun pr =>
          likeMatch ("%" ++ lowerStr (stripStr q) ++ "%") (lowerStr pr.name)))).length = 0 := by
        intro h0
        exact hne ((sortBy_eq_nil _ _).1 (List.length_eq_zero.1 h0))
      rw [if_neg hlen]
    · intro hnil
      simp only [search_products]
      rw [if_neg hq]
      have hlen : (sortByName (s.products.filter (fun pr =>
          likeMatch ("%" ++ lowerStr (stripStr q) ++ "%") (lowerStr pr.name)))).length = 0 := by
        rw [hnil]
        rfl
      rw [if_pos hlen]
      cases hwords : (queryWords (lowerStr (stripStr q))).isEmpty with
      | true =>
        rw [if_pos rfl]
        have hw : queryWords (lowerStr (stripStr q)) = [] := by
          cases hempty : queryWords (lowerStr (stripStr q)) with
          | nil => rfl
          | cons a t =>
            rw [hempty] at hwords
            exact absurd hwords (by simp)
        rw [hw, hnil]
        simp [sortByName, sortBy]
      | false =>
        rw [if_neg (by simp)]

theorem claim_search_products_amended_witness :
    (search_products demoStore (some "cables")).1.products =
      [⟨"p_2012", "Ethernet Cable (2m)", 699, 40⟩,
       ⟨"p_2001", "USB-C Cable (1m)", 899, 25⟩] := by
  have h := ((claim_search_products_amended demoStore "cables").2.2 (by decide)).2 (by decide)
  rw [h]
  decide
